import Mathlib

/-!
Verification of the shopsage session/payment core.

Shallow embedding conventions:
* Solana `Pubkey` values are modelled as `Nat`.
* Rust `u64` arithmetic is modelled on `Nat` with explicit reduction
  modulo `2 ^ 64` where the source can overflow.
* Rust `String`/`&str` values are modelled as `List Char` (for the
  base58 validators only ASCII characters can ever be accepted, so byte
  length and character count agree on every accepted input, and both
  models reject exactly the same inputs).
* `rust_decimal::Decimal` is modelled as `ℚ`; every Decimal operation
  performed by the source (division of an integer by `10 ^ 9`,
  subtraction, absolute value, comparison with `0.001`) is exact in
  `Decimal`, so the rational model is faithful on all reachable values.
* Anchor instructions mutate the session account or abort the whole
  transaction; they are modelled as functions returning
  `Except SessionError SessionAccount`, an error meaning the account is
  left unchanged.
* `Clock::get()?.unix_timestamp` is passed in as an explicit `now : Int`.
-/

/-! ## shopsage-session/src/lib.rs -/

inductive SessionStatus where
  | Pending
  | Active
  | Completed
  | Cancelled
  deriving DecidableEq, Repr

inductive SessionError where
  | InvalidStatus
  | Unauthorized
  deriving DecidableEq, Repr

structure SessionAccount where
  session_id : List Char
  expert : Nat
  shopper : Nat
  amount : Nat
  status : SessionStatus
  start_time : Int
  actual_start_time : Option Int
  end_time : Option Int
  bump : Nat
  deriving DecidableEq, Repr

/-- `create_session`: initialises the session account.  The handler
performs no validation of `amount` and no comparison of the expert and
shopper keys; it always succeeds (modulo account plumbing). -/
def create_session (expert shopper : Nat) (session_id : List Char)
    (amount : Nat) (now : Int) (bump : Nat) : Except SessionError SessionAccount :=
  Except.ok
    { session_id := session_id
      expert := expert
      shopper := shopper
      amount := amount
      status := SessionStatus.Pending
      start_time := now
      actual_start_time := none
      end_time := none
      bump := bump }

/-- `start_session`: requires status `Pending` (else `InvalidStatus`),
then requires the signing expert to equal `session.expert` (else
`Unauthorized`); on success sets status `Active` and stamps
`actual_start_time`. -/
def start_session (session : SessionAccount) (expert : Nat) (now : Int) :
    Except SessionError SessionAccount :=
  if session.status = SessionStatus.Pending then
    if session.expert = expert then
      Except.ok { session with
        status := SessionStatus.Active
        actual_start_time := some now }
    else Except.error SessionError.Unauthorized
  else Except.error SessionError.InvalidStatus

/-- `end_session`: requires status `Active` (else `InvalidStatus`), then
requires the signing expert to equal `session.expert` (else
`Unauthorized`); on success sets status `Completed` and stamps
`end_time`. -/
def end_session (session : SessionAccount) (expert : Nat) (now : Int) :
    Except SessionError SessionAccount :=
  if session.status = SessionStatus.Active then
    if session.expert = expert then
      Except.ok { session with
        status := SessionStatus.Completed
        end_time := some now }
    else Except.error SessionError.Unauthorized
  else Except.error SessionError.InvalidStatus

/-- `cancel_session`: requires status `Pending` (else `InvalidStatus`),
then requires the signing shopper to equal `session.shopper` or the
signing expert to equal `session.expert` (else `Unauthorized`); on
success sets status `Cancelled`.  The two signer slots of the
`CancelSession` accounts struct are passed as the two key arguments. -/
def cancel_session (session : SessionAccount) (shopper expert : Nat) :
    Except SessionError SessionAccount :=
  if session.status = SessionStatus.Pending then
    if session.shopper = shopper ∨ session.expert = expert then
      Except.ok { session with status := SessionStatus.Cancelled }
    else Except.error SessionError.Unauthorized
  else Except.error SessionError.InvalidStatus

/-! ## shopsage-payment/src/lib.rs -/

/-- The `u64` modulus. -/
def u64Mod : Nat := 2 ^ 64

/-- The commission split computed by `process_consultation_payment`:
`expert_commission = amount * 80 / 100` in `u64` arithmetic (the product
wraps modulo `2 ^ 64`), `platform_commission = amount -
expert_commission` in `u64` arithmetic.  The pair of transfer amounts is
returned. -/
def process_consultation_payment (amount : Nat) : Nat × Nat :=
  let expert_commission := amount * 80 % u64Mod / 100
  let platform_commission := (amount + u64Mod - expert_commission) % u64Mod
  (expert_commission, platform_commission)

theorem expert_commission_le (amount : Nat) :
    amount * 80 % u64Mod / 100 ≤ amount := by
  have h1 : amount * 80 % u64Mod ≤ amount * 80 := Nat.mod_le _ _
  have h2 : amount * 80 % u64Mod / 100 ≤ amount * 80 / 100 :=
    Nat.div_le_div_right h1
  have h3 : amount * 80 / 100 ≤ amount * 100 / 100 :=
    Nat.div_le_div_right (by omega)
  have h4 : amount * 100 / 100 = amount :=
    Nat.mul_div_cancel amount (by omega)
  omega

theorem process_consultation_payment_def (amount : Nat) :
    process_consultation_payment amount =
      (amount * 80 % u64Mod / 100,
       (amount + u64Mod - amount * 80 % u64Mod / 100) % u64Mod) := rfl

/-- Example: the split of 100 is (80, 20). -/
example : process_consultation_payment 100 = (80, 20) := by decide

/-- Example: the split of 101 is (80, 21). -/
example : process_consultation_payment 101 = (80, 21) := by decide

/-- C1 (counterexample): at `amount = 230584300921369396` the `u64`
product `amount * 80` wraps modulo `2 ^ 64`, so the expert share
computed by `process_consultation_payment` is `0`, not
`floor(amount * 80 / 100) = 184467440737095516`.  Conservation still
holds at this input (the whole amount goes to the platform share). -/
theorem process_consultation_payment_overflow_cex :
    process_consultation_payment 230584300921369396 =
      (0, 230584300921369396) ∧
    230584300921369396 * 80 / 100 = 184467440737095516 ∧
    (0 : Nat) ≠ 184467440737095516 :=
  ⟨by decide, by decide, by decide⟩

/-- C1 (amended): for every `u64` amount the two shares conserve the
amount exactly (`expert_share + platform_share = amount`); and whenever
`amount * 80` does not overflow `u64` (`amount ≤ 230584300921369395`)
the expert share equals `floor(amount * 80 / 100)` and the platform
share is the exact remainder. -/
theorem process_consultation_payment_split (amount : Nat) (h : amount < u64Mod) :
    (amount * 80 < u64Mod →
      process_consultation_payment amount =
        (amount * 80 / 100, amount - amount * 80 / 100)) ∧
    (process_consultation_payment amount).1 +
      (process_consultation_payment amount).2 = amount := by
  have he : amount * 80 % u64Mod / 100 ≤ amount := expert_commission_le amount
  have hplat : (amount + u64Mod - amount * 80 % u64Mod / 100) % u64Mod =
      amount - amount * 80 % u64Mod / 100 := by
    have hsplit : amount + u64Mod - amount * 80 % u64Mod / 100 =
        (amount - amount * 80 % u64Mod / 100) + u64Mod := by omega
    rw [hsplit, Nat.add_mod_right, Nat.mod_eq_of_lt (by omega)]
  constructor
  · intro hov
    have h80 : amount * 80 % u64Mod = amount * 80 := Nat.mod_eq_of_lt hov
    rw [process_consultation_payment_def, hplat, h80]
  · rw [process_consultation_payment_def]
    simp only [hplat]
    omega

/-- C1 (witness): at `amount = 101` the split is `(80, 21)` and it
conserves the amount. -/
theorem process_consultation_payment_split_witness :
    process_consultation_payment 101 = (101 * 80 / 100, 101 - 101 * 80 / 100) ∧
    (process_consultation_payment 101).1 + (process_consultation_payment 101).2 = 101 :=
  ⟨(process_consultation_payment_split 101 (by decide)).1 (by decide),
   (process_consultation_payment_split 101 (by decide)).2⟩

/-! ## src/services/solana.rs -/

inductive SolanaError where
  | RequestError
  | InvalidSignature (sig : List Char)
  | TransactionNotFound (sig : List Char)
  | InvalidAmount
  | TransactionFailed
  | InvalidWalletAddress (addr : List Char)
  | JsonError
  deriving DecidableEq, Repr

/-- `TransactionMeta`: only the presence of the `err` JSON value is ever
inspected, so its payload is modelled as `Unit`. -/
structure TransactionMeta where
  err : Option Unit
  pre_balances : Option (List Nat)
  post_balances : Option (List Nat)
  fee : Option Nat
  deriving DecidableEq, Repr

structure TransactionMessage where
  account_keys : List (List Char)
  deriving DecidableEq, Repr

structure TransactionData where
  message : TransactionMessage
  deriving DecidableEq, Repr

structure TransactionResponse where
  meta : Option TransactionMeta
  transaction : TransactionData
  deriving DecidableEq, Repr

/-- One arm of the base58 character ranges matched by
`matches!(c, '1'..='9' | 'A'..='H' | 'J'..='N' | 'P'..='Z' | 'a'..='k' | 'm'..='z')`. -/
def isBase58Char (c : Char) : Bool :=
  (decide ('1' ≤ c) && decide (c ≤ '9')) ||
  (decide ('A' ≤ c) && decide (c ≤ 'H')) ||
  (decide ('J' ≤ c) && decide (c ≤ 'N')) ||
  (decide ('P' ≤ c) && decide (c ≤ 'Z')) ||
  (decide ('a' ≤ c) && decide (c ≤ 'k')) ||
  (decide ('m' ≤ c) && decide (c ≤ 'z'))

/-- `is_valid_signature`: length between 64 and 88 (on any accepted
candidate every character is ASCII, so byte length and character count
agree), all characters from the base58 alphabet. -/
def is_valid_signature (signature : List Char) : Bool :=
  if signature.length < 64 ∨ 88 < signature.length then false
  else signature.all isBase58Char

/-- `lamports_to_sol`: `Decimal::from(lamports) / Decimal::from(1_000_000_000u64)`
(exact in `Decimal`, hence modelled exactly in `ℚ`). -/
def lamports_to_sol (lamports : Nat) : ℚ :=
  (lamports : ℚ) / 1000000000

/-- Loop body of `extract_transfer_amount`: Rust
`if post > pre { let increase = post - pre; if increase > max_increase
{ max_increase = increase } }`. -/
def maxIncreaseStep (max_increase : Nat) (pp : Nat × Nat) : Nat :=
  if pp.1 < pp.2 then
    if max_increase < pp.2 - pp.1 then pp.2 - pp.1 else max_increase
  else max_increase

/-- `extract_transfer_amount`: the largest positive per-account balance
increase; `InvalidAmount` when meta or the balance vectors are missing,
when their lengths differ, or when no account gained. -/
def extract_transfer_amount (transaction : TransactionResponse) :
    Except SolanaError Nat :=
  match transaction.meta with
  | none => Except.error SolanaError.InvalidAmount
  | some meta =>
    match meta.pre_balances, meta.post_balances with
    | some pre_balances, some post_balances =>
      if pre_balances.length ≠ post_balances.length then
        Except.error SolanaError.InvalidAmount
      else
        let max_increase := (pre_balances.zip post_balances).foldl maxIncreaseStep 0
        if max_increase = 0 then Except.error SolanaError.InvalidAmount
        else Except.ok max_increase
    | some _, none => Except.error SolanaError.InvalidAmount
    | none, _ => Except.error SolanaError.InvalidAmount

/-- The part of `verify_transaction` that runs on the fetched
transaction: execution check, amount extraction, tolerance comparison
(`tolerance = Decimal::new(1, 3) = 0.001`), optional recipient check. -/
def verify_fetched (transaction : TransactionResponse)
    (expected_amount_sol : ℚ) (expected_recipient : Option (List Char)) :
    Except SolanaError Bool :=
  match transaction.meta with
  | none => Except.error SolanaError.InvalidAmount
  | some meta =>
    if meta.err.isSome then Except.error SolanaError.TransactionFailed
    else
      match extract_transfer_amount transaction with
      | Except.error e => Except.error e
      | Except.ok actual_amount =>
        let actual_sol := lamports_to_sol actual_amount
        let tolerance : ℚ := 1 / 1000
        let difference := abs (expected_amount_sol - actual_sol)
        if tolerance < difference then Except.ok false
        else
          match expected_recipient with
          | some recipient =>
            if transaction.transaction.message.account_keys.contains recipient then
              Except.ok true
            else Except.ok false
          | none => Except.ok true

/-- `verify_transaction`, with the single network operation
(`get_transaction`) abstracted as the `fetch` oracle: format gate first,
then fetch (an oracle error propagates, as with `?`), then the checks on
the fetched transaction. -/
def verify_transaction
    (fetch : List Char → Except SolanaError TransactionResponse)
    (transaction_hash : List Char) (expected_amount_sol : ℚ)
    (expected_recipient : Option (List Char)) : Except SolanaError Bool :=
  if is_valid_signature transaction_hash then
    match fetch transaction_hash with
    | Except.error e => Except.error e
    | Except.ok transaction =>
      verify_fetched transaction expected_amount_sol expected_recipient
  else Except.error (SolanaError.InvalidSignature transaction_hash)

theorem maxIncreaseStep_eq_max (acc : Nat) (pp : Nat × Nat) :
    maxIncreaseStep acc pp = max acc (pp.2 - pp.1) := by
  unfold maxIncreaseStep
  rcases Nat.lt_or_ge pp.1 pp.2 with h | h
  · rw [if_pos h]
    split <;> omega
  · rw [if_neg (by omega)]
    omega

theorem foldl_maxIncreaseStep (l : List (Nat × Nat)) (acc : Nat) :
    l.foldl maxIncreaseStep acc =
      max acc ((l.map fun pp => pp.2 - pp.1).foldr max 0) := by
  induction l generalizing acc with
  | nil => simp
  | cons p l ih =>
    simp only [List.foldl_cons, List.map_cons, List.foldr_cons]
    rw [ih, maxIncreaseStep_eq_max]
    omega

theorem foldr_max_eq_zero_or_mem (l : List Nat) :
    l.foldr max 0 = 0 ∨ l.foldr max 0 ∈ l := by
  induction l with
  | nil => exact Or.inl rfl
  | cons a l ih =>
    simp only [List.foldr_cons]
    rcases Nat.le_total a (l.foldr max 0) with h | h
    · rw [max_eq_right h]
      rcases ih with h0 | hm
      · exact Or.inl h0
      · exact Or.inr (List.mem_cons_of_mem _ hm)
    · rw [max_eq_left h]
      exact Or.inr (List.mem_cons_self _ _)

theorem le_foldr_max (l : List Nat) (x : Nat) (hx : x ∈ l) :
    x ≤ l.foldr max 0 := by
  induction l with
  | nil => cases hx
  | cons a l ih =>
    simp only [List.foldr_cons]
    rcases List.mem_cons.mp hx with h | h
    · subst h
      exact le_max_left _ _
    · exact le_trans (ih h) (le_max_right _ _)

/-- The specification-level quantity of §4.3 step 4: the maximum
positive balance delta over all touched accounts (truncated subtraction
makes a non-positive delta contribute `0`). -/
def maxPositiveDelta (pre post : List Nat) : Nat :=
  ((pre.zip post).map fun pp => pp.2 - pp.1).foldr max 0

/-- A 63-character candidate signature. -/
def sig63 : List Char := List.replicate 63 'A'

/-- An 88-character candidate signature of the valid alphabet. -/
def sig88 : List Char := List.replicate 88 'A'

/-- A 64-character candidate signature of the valid alphabet. -/
def sig64 : List Char := List.replicate 64 '1'

/-- A successful transaction in which one account gains `lamports`. -/
def paidTx (lamports : Nat) : TransactionResponse :=
  { meta := some
      { err := none
        pre_balances := some [0]
        post_balances := some [lamports]
        fee := some 0 }
    transaction := { message := { account_keys := [] } } }

/-- C5: a candidate signature whose length is outside 64..88 or that
contains a character outside the base58 alphabet makes
`verify_transaction` fail with `InvalidSignature` for every fetch
oracle, i.e. without consulting the network; `sig63` is rejected while
`sig88` passes the format gate and the fetch's outcome is surfaced; the
alphabet excludes `0`, `O`, `I`, `l` and has exactly 58 symbols. -/
theorem invalid_format_no_fetch :
    (∀ (fetch : List Char → Except SolanaError TransactionResponse)
        (s : List Char) (amt : ℚ) (r : Option (List Char)),
        s.length < 64 ∨ 88 < s.length ∨ (∃ c ∈ s, isBase58Char c = false) →
        verify_transaction fetch s amt r =
          Except.error (SolanaError.InvalidSignature s)) ∧
    is_valid_signature sig63 = false ∧
    is_valid_signature sig88 = true ∧
    (∀ (amt : ℚ) (r : Option (List Char)),
        verify_transaction
          (fun h => Except.error (SolanaError.TransactionNotFound h))
          sig88 amt r =
          Except.error (SolanaError.TransactionNotFound sig88)) ∧
    (isBase58Char '0' = false ∧ isBase58Char 'O' = false ∧
      isBase58Char 'I' = false ∧ isBase58Char 'l' = false) ∧
    ((List.range 128).filter (fun n => isBase58Char (Char.ofNat n))).length = 58 := by
  refine ⟨?_, by decide, by decide, ?_, by decide, by decide⟩
  · intro fetch s amt r h
    have hv : is_valid_signature s = false := by
      unfold is_valid_signature
      by_cases hlen : s.length < 64 ∨ 88 < s.length
      · rw [if_pos hlen]
      · rw [if_neg hlen]
        rcases h with h | h | ⟨c, hc, hcb⟩
        · exact absurd (Or.inl h) hlen
        · exact absurd (Or.inr h) hlen
        · cases hall : s.all isBase58Char with
          | false => rfl
          | true =>
            have hctrue := List.all_eq_true.mp hall c hc
            rw [hcb] at hctrue
            cases hctrue
    simp [verify_transaction, hv]
  · intro amt r
    have hv : is_valid_signature sig88 = true := by decide
    simp [verify_transaction, hv]

/-- C5 (witness): the 63-character candidate is rejected with
`InvalidSignature` even when the fetch oracle would answer. -/
theorem invalid_format_no_fetch_witness :
    verify_transaction
      (fun h => Except.error (SolanaError.TransactionNotFound h))
      sig63 10 none = Except.error (SolanaError.InvalidSignature sig63) :=
  invalid_format_no_fetch.1 _ sig63 10 none (Or.inl (by decide))

/-- C6: whenever the fetched transaction has metadata and balance
vectors of equal length, `extract_transfer_amount` returns exactly the
maximum positive per-account balance delta (which is attained by some
touched account and dominates every account's delta), and fails with
`InvalidAmount` when no account shows a positive delta. -/
theorem extract_transfer_amount_spec
    (t : TransactionResponse) (meta : TransactionMeta) (pre post : List Nat)
    (hmeta : t.meta = some meta) (hpre : meta.pre_balances = some pre)
    (hpost : meta.post_balances = some post)
    (hlen : pre.length = post.length) :
    (0 < maxPositiveDelta pre post →
      extract_transfer_amount t = Except.ok (maxPositiveDelta pre post) ∧
      ∃ pp ∈ pre.zip post, pp.1 < pp.2 ∧
        pp.2 - pp.1 = maxPositiveDelta pre post) ∧
    (∀ pp ∈ pre.zip post, pp.2 - pp.1 ≤ maxPositiveDelta pre post) ∧
    (maxPositiveDelta pre post = 0 →
      extract_transfer_amount t = Except.error SolanaError.InvalidAmount) := by
  have hMdef : maxPositiveDelta pre post =
      ((pre.zip post).map fun pp => pp.2 - pp.1).foldr max 0 := rfl
  have hextract : extract_transfer_amount t =
      if maxPositiveDelta pre post = 0 then Except.error SolanaError.InvalidAmount
      else Except.ok (maxPositiveDelta pre post) := by
    unfold extract_transfer_amount
    split
    · rename_i heq
      rw [hmeta] at heq
      cases heq
    · rename_i m heq
      rw [hmeta] at heq
      injection heq with heq
      subst heq
      split
      · rename_i preb postb heq1 heq2
        rw [hpre] at heq1
        rw [hpost] at heq2
        injection heq1 with heq1
        injection heq2 with heq2
        subst heq1
        subst heq2
        rw [if_neg (by omega)]
        simp only [foldl_maxIncreaseStep, Nat.zero_max, ← hMdef]
      · rename_i heq1 heq2
        rw [hpost] at heq2
        cases heq2
      · rename_i heq1
        rw [hpre] at heq1
        cases heq1
  refine ⟨?_, ?_, ?_⟩
  · intro hpos
    refine ⟨by rw [hextract, if_neg (by omega)], ?_⟩
    rcases foldr_max_eq_zero_or_mem
        ((pre.zip post).map fun pp => pp.2 - pp.1) with h0 | hm
    · rw [← hMdef] at h0
      omega
    · rw [← hMdef] at hm
      obtain ⟨pp, hppmem, hppeq⟩ := List.mem_map.mp hm
      exact ⟨pp, hppmem, by omega, hppeq⟩
  · intro pp hpp
    rw [hMdef]
    exact le_foldr_max _ _ (List.mem_map.mpr ⟨pp, hpp, rfl⟩)
  · intro h0
    rw [hextract, if_pos h0]

/-- C6 (witness): for a transaction with pre-balances `[5, 0]` and
post-balances `[3, 7]` the extracted amount is the maximal positive
delta `7`. -/
theorem extract_transfer_amount_spec_witness :
    extract_transfer_amount (paidTx 7) = Except.ok 7 ∧
    extract_transfer_amount
      { meta := some
          { err := none, pre_balances := some [5, 0],
            post_balances := some [3, 7], fee := some 0 }
        transaction := { message := { account_keys := [] } } } =
      Except.ok 7 :=
  ⟨((extract_transfer_amount_spec (paidTx 7) _ [0] [7] rfl rfl rfl rfl).1
      (by decide)).1,
   ((extract_transfer_amount_spec _ _ [5, 0] [3, 7] rfl rfl rfl rfl).1
      (by decide)).1⟩

/-- C7: with a well-formed format, a fetched successful transaction and
an extracted amount, `verify_transaction` answers `Ok(false)` (not an
error) whenever the received amount differs from the expected one by
more than the fixed `0.001` tolerance, and (with no recipient check
requested) answers `Ok(true)` exactly when the absolute difference is
within the tolerance, the received amount being converted at the fixed
`1 : 10 ^ 9` scale. -/
theorem verify_transaction_tolerance
    (fetch : List Char → Except SolanaError TransactionResponse)
    (sig : List Char) (t : TransactionResponse) (meta : TransactionMeta)
    (expected : ℚ) (amt : Nat)
    (hsig : is_valid_signature sig = true)
    (hfetch : fetch sig = Except.ok t)
    (hmeta : t.meta = some meta) (herr : meta.err = none)
    (hamt : extract_transfer_amount t = Except.ok amt) :
    (∀ r, 1 / 1000 < abs (expected - lamports_to_sol amt) →
      verify_transaction fetch sig expected r = Except.ok false) ∧
    (verify_transaction fetch sig expected none = Except.ok true ↔
      abs (expected - lamports_to_sol amt) ≤ 1 / 1000) := by
  have hred : ∀ r, verify_transaction fetch sig expected r =
      verify_fetched t expected r := by
    intro r
    simp [verify_transaction, hsig, hfetch]
  have hvf : ∀ r, verify_fetched t expected r =
      if 1 / 1000 < abs (expected - lamports_to_sol amt) then Except.ok false
      else
        match r with
        | some recipient =>
          if t.transaction.message.account_keys.contains recipient then
            Except.ok true
          else Except.ok false
        | none => Except.ok true := by
    intro r
    unfold verify_fetched
    split
    · rename_i heq
      rw [hmeta] at heq
      cases heq
    · rename_i m heq
      rw [hmeta] at heq
      injection heq with heq
      subst heq
      have herr2 : meta.err.isSome = false := by rw [herr]; rfl
      rw [herr2, if_neg Bool.false_ne_true]
      split
      · rename_i e heq2
        rw [hamt] at heq2
        cases heq2
      · rename_i a heq2
        rw [hamt] at heq2
        injection heq2 with heq2
        subst heq2
        rfl
  constructor
  · intro r hgt
    rw [hred r, hvf r, if_pos hgt]
  · rw [hred none, hvf none]
    by_cases hle : abs (expected - lamports_to_sol amt) ≤ 1 / 1000
    · rw [if_neg (not_lt.mpr hle)]
      exact iff_of_true rfl hle
    · rw [if_pos (not_le.mp hle)]
      exact iff_of_false (by simp) hle

/-- C7 (witness): expecting `10` SOL, a received amount of
`9999000000` lamports (9.999 SOL) verifies `true` and `9998000000`
lamports (9.998 SOL) verifies `false`. -/
theorem verify_transaction_tolerance_witness :
    verify_transaction (fun _ => Except.ok (paidTx 9999000000))
      sig64 10 none = Except.ok true ∧
    verify_transaction (fun _ => Except.ok (paidTx 9998000000))
      sig64 10 none = Except.ok false :=
  ⟨(verify_transaction_tolerance _ sig64 (paidTx 9999000000) _ 10 9999000000
      (by decide) rfl rfl rfl rfl).2.mpr
      (by norm_num [lamports_to_sol, abs_le]),
   (verify_transaction_tolerance _ sig64 (paidTx 9998000000) _ 10 9998000000
      (by decide) rfl rfl rfl rfl).1 none
      (by norm_num [lamports_to_sol, lt_abs])⟩

/-! ## src/handlers/payments.rs -/

inductive PaymentStatus where
  | Pending
  | Completed
  | Failed
  deriving DecidableEq, Repr

/-- Modelled from the spec: the persisted session row read by the
payments handler (`crate::models::session` is not among the provided
sources).  Per §3 it carries the session's lifecycle status, the shopper
identity, the agreed amount, and the payment projection fields the
handler writes (`payment_status`, `transaction_hash`). -/
structure BackendSession where
  id : Nat
  shopper_id : Nat
  amount : ℚ
  status : SessionStatus
  payment_status : PaymentStatus
  transaction_hash : Option (List Char)
  deriving DecidableEq, Repr

/-- Modelled from the spec: the PaymentRecord row
(`crate::models::payment` is not among the provided sources):
correlated to a session, with `status : Pending | Completed | Failed`
and an optional ledger signature. -/
structure Payment where
  id : Nat
  session_id : Nat
  amount : ℚ
  transaction_hash : Option (List Char)
  status : PaymentStatus
  deriving DecidableEq, Repr

structure PaymentsDb where
  sessions : List BackendSession
  payments : List Payment
  deriving DecidableEq, Repr

inductive ApiError where
  | NotFound
  | Forbidden
  | BadRequest
  deriving DecidableEq, Repr

/-- `process_payment` (the reconciliation handler), with the ledger
verifier abstracted as the `verify` oracle (the handler calls it with
the claimed hash and the session's amount).  Persistence
(`Session::find_by_id`, `Payment::create`, `Session::update`,
`Payment::update`, from the absent `crate::models`) is modelled from the
spec as list lookup and functional update, with a fresh surrogate id and
initial status `Pending` for the created payment.  The handler checks
that the session exists and that the caller is the session's shopper; it
never reads `session.status` and never looks for an existing payment
record. -/
def process_payment
    (verify : List Char → ℚ → Except SolanaError Bool)
    (db : PaymentsDb) (user_id : Nat) (session_id : Nat)
    (transaction_hash : List Char) :
    Except ApiError (Payment × BackendSession) × PaymentsDb :=
  match db.sessions.find? (fun s => s.id == session_id) with
  | none => (Except.error ApiError.NotFound, db)
  | some session =>
    if session.shopper_id ≠ user_id then (Except.error ApiError.Forbidden, db)
    else
      match verify transaction_hash session.amount with
      | Except.error _ => (Except.error ApiError.BadRequest, db)
      | Except.ok false => (Except.error ApiError.BadRequest, db)
      | Except.ok true =>
        let payment : Payment :=
          { id := db.payments.length
            session_id := session_id
            amount := session.amount
            transaction_hash := some transaction_hash
            status := PaymentStatus.Pending }
        let updated_session : BackendSession :=
          { session with
            payment_status := PaymentStatus.Completed
            transaction_hash := some transaction_hash }
        let final_payment : Payment :=
          { payment with status := PaymentStatus.Completed }
        let db2 : PaymentsDb :=
          { sessions := db.sessions.map fun s =>
              if s.id == session_id then updated_session else s
            payments := (db.payments ++ [payment]).map fun p =>
              if p.id == payment.id then final_payment else p }
        (Except.ok (final_payment, updated_session), db2)

/-- A session still in lifecycle status `Pending` (never started). -/
def pendingSession : BackendSession :=
  { id := 1, shopper_id := 10, amount := 50,
    status := SessionStatus.Pending,
    payment_status := PaymentStatus.Pending, transaction_hash := none }

def dbPending : PaymentsDb :=
  { sessions := [pendingSession], payments := [] }

/-- A session whose settlement already completed. -/
def settledSession : BackendSession :=
  { id := 1, shopper_id := 10, amount := 50,
    status := SessionStatus.Active,
    payment_status := PaymentStatus.Completed,
    transaction_hash := some sig64 }

def completedPayment : Payment :=
  { id := 0, session_id := 1, amount := 50,
    transaction_hash := some sig64, status := PaymentStatus.Completed }

def dbCompleted : PaymentsDb :=
  { sessions := [settledSession], payments := [completedPayment] }

/-- C8 (counterexample): a claim against a session in lifecycle status
`Pending` (not `Active`) is not rejected: the verifier is invoked (its
error surfaces as `BadRequest`) and on a positive verification the
handler records a `Completed` payment and updates the session's payment
fields. -/
theorem process_payment_no_status_check_cex :
    pendingSession.status = SessionStatus.Pending ∧
    (process_payment (fun _ _ => Except.ok true) dbPending 10 1 sig64).1 =
      Except.ok
        ({ id := 0, session_id := 1, amount := 50,
           transaction_hash := some sig64,
           status := PaymentStatus.Completed },
         { pendingSession with
             payment_status := PaymentStatus.Completed
             transaction_hash := some sig64 }) ∧
    (process_payment (fun _ _ => Except.ok true) dbPending 10 1 sig64).2.payments.length = 1 ∧
    dbPending.payments.length = 0 ∧
    (process_payment (fun _ _ => Except.error SolanaError.InvalidAmount)
        dbPending 10 1 sig64).1 = Except.error ApiError.BadRequest :=
  ⟨rfl, rfl, rfl, rfl, rfl⟩

/-- C8 (amended): `process_payment` performs no session-status check:
whenever the session exists and the caller is its shopper — with no
condition at all on `session.status` — the claim is passed to the ledger
verifier; a verifier error or negative answer yields `BadRequest` with
the database unchanged, and a positive answer creates a `Completed`
payment and marks the session's `payment_status` completed, even for a
session that is not `Active`. -/
theorem process_payment_ignores_session_status
    (verify : List Char → ℚ → Except SolanaError Bool)
    (db : PaymentsDb) (user_id session_id : Nat) (tx : List Char)
    (session : BackendSession)
    (hfind : db.sessions.find? (fun s => s.id == session_id) = some session)
    (howner : session.shopper_id = user_id) :
    (∀ e, verify tx session.amount = Except.error e →
      process_payment verify db user_id session_id tx =
        (Except.error ApiError.BadRequest, db)) ∧
    (verify tx session.amount = Except.ok false →
      process_payment verify db user_id session_id tx =
        (Except.error ApiError.BadRequest, db)) ∧
    (verify tx session.amount = Except.ok true →
      (process_payment verify db user_id session_id tx).1 =
        Except.ok
          ({ id := db.payments.length, session_id := session_id,
             amount := session.amount, transaction_hash := some tx,
             status := PaymentStatus.Completed },
           { session with
               payment_status := PaymentStatus.Completed
               transaction_hash := some tx }) ∧
      (process_payment verify db user_id session_id tx).2.payments.length =
        db.payments.length + 1) := by
  refine ⟨?_, ?_, ?_⟩
  · intro e hv
    unfold process_payment
    split
    · rename_i heq
      rw [hfind] at heq
      cases heq
    · rename_i s heq
      rw [hfind] at heq
      injection heq with heq
      subst heq
      rw [if_neg (by omega)]
      split
      · rfl
      · rfl
      · rename_i heq2
        rw [hv] at heq2
        cases heq2
  · intro hv
    unfold process_payment
    split
    · rename_i heq
      rw [hfind] at heq
      cases heq
    · rename_i s heq
      rw [hfind] at heq
      injection heq with heq
      subst heq
      rw [if_neg (by omega)]
      split
      · rfl
      · rfl
      · rename_i heq2
        rw [hv] at heq2
        cases heq2
  · intro hv
    unfold process_payment
    split
    · rename_i heq
      rw [hfind] at heq
      cases heq
    · rename_i s heq
      rw [hfind] at heq
      injection heq with heq
      subst heq
      rw [if_neg (by omega)]
      split
      · rename_i heq2
        rw [hv] at heq2
        cases heq2
      · rename_i heq2
        rw [hv] at heq2
        cases heq2
      · refine ⟨rfl, ?_⟩
        simp

/-- C8 (witness): on the concrete `Pending`-status database the flow
appends a payment record. -/
theorem process_payment_ignores_session_status_witness :
    (process_payment (fun _ _ => Except.ok true) dbPending 10 1 sig64).2.payments.length =
      dbPending.payments.length + 1 :=
  ((process_payment_ignores_session_status _ dbPending 10 1 sig64
      pendingSession rfl rfl).2.2 rfl).2

/-- C9 (counterexample): re-processing a claim whose payment record is
already `Completed` (same session, same signature) is not a no-op: the
verifier is re-invoked (its error surfaces as `BadRequest`) and a
positive verification appends a second payment record (fresh id 1)
instead of returning the prior one. -/
theorem process_payment_not_idempotent_cex :
    completedPayment.status = PaymentStatus.Completed ∧
    completedPayment.transaction_hash = some sig64 ∧
    (process_payment (fun _ _ => Except.ok true) dbCompleted 10 1 sig64).1 =
      Except.ok
        ({ id := 1, session_id := 1, amount := 50,
           transaction_hash := some sig64,
           status := PaymentStatus.Completed },
         { settledSession with
             payment_status := PaymentStatus.Completed
             transaction_hash := some sig64 }) ∧
    (process_payment (fun _ _ => Except.ok true) dbCompleted 10 1 sig64).2.payments.length = 2 ∧
    dbCompleted.payments.length = 1 ∧
    (process_payment
        (fun _ _ => Except.error (SolanaError.TransactionNotFound sig64))
        dbCompleted 10 1 sig64).1 = Except.error ApiError.BadRequest :=
  ⟨rfl, rfl, rfl, rfl, rfl, rfl⟩

/-- C9 (amended): re-processing the same claim against a database that
already holds a `Completed` payment record for the same signature
re-executes the whole flow: the verifier is consulted again and, on a
positive answer, a new payment record is appended (the payment list
grows by one) and the session's payment fields are rewritten — the
handler is not idempotent and does not return the prior result. -/
theorem process_payment_reprocess_appends
    (verify : List Char → ℚ → Except SolanaError Bool)
    (db : PaymentsDb) (user_id session_id : Nat) (tx : List Char)
    (session : BackendSession) (prior : Payment)
    (hfind : db.sessions.find? (fun s => s.id == session_id) = some session)
    (howner : session.shopper_id = user_id)
    (_hprior : prior ∈ db.payments)
    (_hpriorStatus : prior.status = PaymentStatus.Completed)
    (_hpriorTx : prior.transaction_hash = some tx)
    (hv : verify tx session.amount = Except.ok true) :
    (process_payment verify db user_id session_id tx).2.payments.length =
      db.payments.length + 1 ∧
    (process_payment verify db user_id session_id tx).1 =
      Except.ok
        ({ id := db.payments.length, session_id := session_id,
           amount := session.amount, transaction_hash := some tx,
           status := PaymentStatus.Completed },
         { session with
             payment_status := PaymentStatus.Completed
             transaction_hash := some tx }) := by
  unfold process_payment
  split
  · rename_i heq
    rw [hfind] at heq
    cases heq
  · rename_i s heq
    rw [hfind] at heq
    injection heq with heq
    subst heq
    rw [if_neg (by omega)]
    split
    · rename_i heq2
      rw [hv] at heq2
      cases heq2
    · rename_i heq2
      rw [hv] at heq2
      cases heq2
    · refine ⟨?_, rfl⟩
      simp

/-- C9 (witness): on the concrete already-settled database the flow
appends a second payment record. -/
theorem process_payment_reprocess_appends_witness :
    (process_payment (fun _ _ => Except.ok true) dbCompleted 10 1 sig64).2.payments.length =
      dbCompleted.payments.length + 1 :=
  (process_payment_reprocess_appends _ dbCompleted 10 1 sig64
      settledSession completedPayment rfl rfl
      (List.mem_singleton_self completedPayment) rfl rfl rfl).1

/-- C2: once a session is `Completed` or `Cancelled`, `start_session`,
`end_session` and `cancel_session` all fail with `InvalidStatus` (the
account is unchanged, since an Anchor error aborts the transaction);
every successful `start_session` changes exactly the status (to
`Active`) and `actual_start_time`; every successful `end_session`
changes exactly the status (to `Completed`) and `end_time`; every
successful `cancel_session` changes exactly the status; `create_session`
initialises both optional timestamps to `none`. -/
theorem session_lifecycle (s : SessionAccount) (actor : Nat) (now : Int) :
    (s.status = SessionStatus.Completed ∨ s.status = SessionStatus.Cancelled →
      start_session s actor now = Except.error SessionError.InvalidStatus ∧
      end_session s actor now = Except.error SessionError.InvalidStatus ∧
      ∀ sh ex, cancel_session s sh ex = Except.error SessionError.InvalidStatus) ∧
    (∀ s', start_session s actor now = Except.ok s' →
      s' = { s with status := SessionStatus.Active, actual_start_time := some now }) ∧
    (∀ s', end_session s actor now = Except.ok s' →
      s' = { s with status := SessionStatus.Completed, end_time := some now }) ∧
    (∀ sh ex s', cancel_session s sh ex = Except.ok s' →
      s' = { s with status := SessionStatus.Cancelled }) ∧
    (∀ e sh sid amt t b s', create_session e sh sid amt t b = Except.ok s' →
      s'.actual_start_time = none ∧ s'.end_time = none) := by
  refine ⟨?_, ?_, ?_, ?_, ?_⟩
  · intro h
    rcases h with h | h <;>
      simp [start_session, end_session, cancel_session, h]
  · intro s' h
    unfold start_session at h
    split at h
    · split at h
      · injection h with h
        exact h.symm
      · simp at h
    · simp at h
  · intro s' h
    unfold end_session at h
    split at h
    · split at h
      · injection h with h
        exact h.symm
      · simp at h
    · simp at h
  · intro sh ex s' h
    unfold cancel_session at h
    split at h
    · split at h
      · injection h with h
        exact h.symm
      · simp at h
    · simp at h
  · intro e sh sid amt t b s' h
    injection h with h
    rw [← h]
    exact ⟨rfl, rfl⟩

/-- C2 (witness): on a concrete `Completed` session all three
transitions fail with `InvalidStatus`. -/
theorem session_lifecycle_witness :
    start_session ⟨[], 2, 1, 50, SessionStatus.Completed, 0, none, none, 0⟩ 2 9 =
      Except.error SessionError.InvalidStatus ∧
    end_session ⟨[], 2, 1, 50, SessionStatus.Completed, 0, none, none, 0⟩ 2 9 =
      Except.error SessionError.InvalidStatus ∧
    cancel_session ⟨[], 2, 1, 50, SessionStatus.Completed, 0, none, none, 0⟩ 1 2 =
      Except.error SessionError.InvalidStatus := by
  have h := (session_lifecycle
    ⟨[], 2, 1, 50, SessionStatus.Completed, 0, none, none, 0⟩ 2 9).1 (Or.inl rfl)
  exact ⟨h.1, h.2.1, h.2.2 1 2⟩

/-- C3 (counterexample): a creation attempt with `amount = 0` and with
the expert identity equal to the shopper identity succeeds and produces
a `Pending` session — `create_session` performs no validation. -/
theorem create_session_no_validation_cex :
    create_session 5 5 [] 0 0 0 =
      Except.ok
        { session_id := [], expert := 5, shopper := 5, amount := 0,
          status := SessionStatus.Pending, start_time := 0,
          actual_start_time := none, end_time := none, bump := 0 } := rfl

/-- C3 (amended): `create_session` performs no validation at all — for
every amount (including `0`) and every pair of identities (including
`expert = shopper`) it succeeds and creates a `Pending` session with the
given fields. -/
theorem create_session_unvalidated (expert shopper : Nat) (sid : List Char)
    (amount : Nat) (now : Int) (bump : Nat) :
    ∃ s, create_session expert shopper sid amount now bump = Except.ok s ∧
      s.status = SessionStatus.Pending ∧ s.amount = amount ∧
      s.expert = expert ∧ s.shopper = shopper :=
  ⟨_, rfl, rfl, rfl, rfl, rfl⟩

/-- C4: a `Pending` session is cancelled by a single matching party:
whenever the shopper signer equals `session.shopper` or the expert
signer equals `session.expert` (the other signer slot may hold any key,
so neither counterparty's authorization is required), `cancel_session`
succeeds and sets the status to `Cancelled`. -/
theorem cancel_session_single_party (s : SessionAccount) (sh ex : Nat)
    (hp : s.status = SessionStatus.Pending)
    (hauth : s.shopper = sh ∨ s.expert = ex) :
    cancel_session s sh ex = Except.ok { s with status := SessionStatus.Cancelled } := by
  unfold cancel_session
  rw [if_pos hp, if_pos hauth]

/-- C4 (witness): on a concrete `Pending` session (shopper 1, expert 2)
the shopper cancels alone (second signer 99 matches nobody) and the
expert cancels alone (first signer 99 matches nobody). -/
theorem cancel_session_single_party_witness :
    cancel_session ⟨[], 2, 1, 50, SessionStatus.Pending, 0, none, none, 0⟩ 1 99 =
      Except.ok ⟨[], 2, 1, 50, SessionStatus.Cancelled, 0, none, none, 0⟩ ∧
    cancel_session ⟨[], 2, 1, 50, SessionStatus.Pending, 0, none, none, 0⟩ 99 2 =
      Except.ok ⟨[], 2, 1, 50, SessionStatus.Cancelled, 0, none, none, 0⟩ :=
  ⟨cancel_session_single_party _ 1 99 rfl (Or.inl rfl),
   cancel_session_single_party _ 99 2 rfl (Or.inr rfl)⟩

/-- C10: in `start_session` and `end_session` the status check precedes
the authorization check, so when both the status is wrong and the actor
is not the session's expert the reported error is `InvalidStatus`, not
`Unauthorized`. -/
theorem status_checked_before_auth (s : SessionAccount) (actor : Nat) (now : Int) :
    (s.status ≠ SessionStatus.Pending → s.expert ≠ actor →
      start_session s actor now = Except.error SessionError.InvalidStatus) ∧
    (s.status ≠ SessionStatus.Active → s.expert ≠ actor →
      end_session s actor now = Except.error SessionError.InvalidStatus) := by
  constructor
  · intro h1 _
    unfold start_session
    rw [if_neg h1]
  · intro h1 _
    unfold end_session
    rw [if_neg h1]

/-- C10 (witness): an `Active` session started by a non-expert actor,
and a `Pending` session ended by a non-expert actor, both report
`InvalidStatus`. -/
theorem status_checked_before_auth_witness :
    start_session ⟨[], 2, 1, 50, SessionStatus.Active, 0, none, none, 0⟩ 7 9 =
      Except.error SessionError.InvalidStatus ∧
    end_session ⟨[], 2, 1, 50, SessionStatus.Pending, 0, none, none, 0⟩ 7 9 =
      Except.error SessionError.InvalidStatus :=
  ⟨(status_checked_before_auth
      ⟨[], 2, 1, 50, SessionStatus.Active, 0, none, none, 0⟩ 7 9).1
      (by decide) (by decide),
   (status_checked_before_auth
      ⟨[], 2, 1, 50, SessionStatus.Pending, 0, none, none, 0⟩ 7 9).2
      (by decide) (by decide)⟩
